import Mathlib

set_option maxHeartbeats 1000000

/-!
Shallow embedding of the Ticketnator support-chatbot service (src/app.py).

Python strings are modelled as Lean `String`; the string methods used by the
code (`str.strip`, `str.lower`, `str.startswith`, slicing `s[13:]`, and
`str.split(" ")`) are embedded as the executable functions `pyStrip`,
`pyLower`, `pyStartswith`, `pySliceFrom` and `pySplitSpace` below, which
implement the Python semantics by structural recursion over the character
list (case mapping restricted to ASCII).  The dict `CATEGORIES` is an
association list in insertion order.  External effects are modelled by their
outcomes: the Gemini call, jwt decoding, the SMTP steps and JSON body parsing
each become an `Except` value, where `Except.error` stands for the call
raising an exception.  Configuration read from the environment (the sender
email address) is passed in as an explicit argument.  Starting a background
thread is recorded as a `ThreadCall` value carrying the args tuple.
-/

namespace Ticketnator

/-- Whitespace set of Python str.strip with no argument, restricted to the
ASCII range: space, tab, newline, carriage return, vertical tab, form
feed. -/
def pyIsSpace (c : Char) : Bool :=
  c = ' ' || c = '\t' || c = '\n' || c = '\r' || c = '\x0b' || c = '\x0c'

/-- Python str.strip(): remove leading and trailing whitespace. -/
def pyStrip (s : String) : String :=
  ⟨((s.data.dropWhile pyIsSpace).reverse.dropWhile pyIsSpace).reverse⟩

/-- ASCII case map of Python str.lower (all inputs of interest are ASCII). -/
def asciiLower (c : Char) : Char :=
  if 'A' ≤ c ∧ c ≤ 'Z' then Char.ofNat (c.toNat + 32) else c

/-- Python str.lower(). -/
def pyLower (s : String) : String :=
  ⟨s.data.map asciiLower⟩

/-- Python s.startswith(pre). -/
def pyStartswith (s : String) (pre : String) : Bool :=
  List.isPrefixOf pre.data s.data

/-- Python slice s[n:], by code points. -/
def pySliceFrom (s : String) (n : Nat) : String :=
  ⟨s.data.drop n⟩

/-- Helper for pySplitSpace: accumulate the current field (reversed). -/
def pySplitSpaceAux : List Char → List Char → List String
  | [], acc => [⟨acc.reverse⟩]
  | c :: rest, acc =>
    if c = ' ' then (⟨acc.reverse⟩ : String) :: pySplitSpaceAux rest []
    else pySplitSpaceAux rest (c :: acc)

/-- Python s.split(" "): split at every single space, keeping empty fields. -/
def pySplitSpace (s : String) : List String :=
  pySplitSpaceAux s.data []

/-- Embedding of the CATEGORIES dict (src/app.py lines 35-42), in insertion
order, as an association list from key to department email address. -/
def CATEGORIES : List (String × String) :=
  [("TRAINING_EMAIL", "training@example.com"),
   ("IT_OPS_EMAIL", "demogptmukund@gmail.com"),
   ("TECH_EMAIL", "mukunddemochatgpt@gmail.com"),
   ("HR_EMAIL", "hr@example.com"),
   ("FINANCE_EMAIL", "finance@example.com"),
   ("SALES_EMAIL", "sales@example.com")]

/-- Python `k in d` membership test on a dict, for the association-list
embedding. -/
def dictContains (d : List (String × String)) (k : String) : Bool :=
  (d.lookup k).isSome

/-- Python `d.get(k, dflt)` on a dict. -/
def dictGet (d : List (String × String)) (k : String) (dflt : String) : String :=
  match d.lookup k with
  | some v => v
  | none => dflt

/-- Embedding of handle_hi (src/app.py lines 44-45). -/
def handle_hi : String :=
  "👋 Hi! I\x27m your support assistant. How can I help you today?"

/-- Embedding of handle_help (src/app.py lines 47-52). -/
def handle_help : String :=
  "Available commands:\n• Hi - Say hello\n• Help - Show this help message\n• Create Ticket <description> - Create a new support ticket\n• Check Status - Check system status"

/-- Embedding of handle_check_status (src/app.py lines 54-55). -/
def handle_check_status : String :=
  "✅ All systems are operational. Ready to assist you!"

/-- Embedding of get_department_from_gemini (src/app.py lines 57-82).  The
external Gemini call is modelled by its outcome: `Except.error` when building
the client or invoking the model raises, `Except.ok raw` when it returns a
response whose extracted content string is `raw` (either `response.content` or
`str(response)`; both are just a string here).  The code trims the content,
keeps it only when it is a key of CATEGORIES, and otherwise falls back to
"Training"; the surrounding try/except turns any raised error into "Training"
as well. -/
def get_department_from_gemini (modelResponse : Except String String) : String :=
  match modelResponse with
  | Except.error _ => "Training"
  | Except.ok raw =>
    let category := pyStrip raw
    if dictContains CATEGORIES category then category else "Training"

/-- Embedding of the routing lookup on src/app.py line 109:
`CATEGORIES.get(detected_category, EMAIL_SETTINGS["SENDER_EMAIL"])`.  The
configured sender address is the injected `senderEmail` argument. -/
def route (senderEmail : String) (category : String) : String :=
  dictGet CATEGORIES category senderEmail

/-- Session events produced by the SMTP context manager. -/
inductive SessEvent
  | opened
  | closed
deriving DecidableEq

/-- Outcomes of the four fallible SMTP steps inside send_notification: the
smtplib.SMTP constructor (which connects), server.starttls, server.login and
server.send_message.  `Except.error` stands for the step raising. -/
structure SmtpSteps where
  connect : Except String Unit
  starttls : Except String Unit
  login : Except String Unit
  send_message : Except String Unit

/-- Embedding of the Python `with smtplib.SMTP(...) as server` statement: if
the constructor raises, no session is opened and the error propagates;
otherwise a session is opened, the body runs, and the session is closed on
every exit path, normal or raising, before the body result propagates. -/
def withSMTP (connect : Except String Unit)
    (body : List SessEvent → Except String Unit × List SessEvent) :
    Except String Unit × List SessEvent :=
  match connect with
  | Except.error e => (Except.error e, [])
  | Except.ok _ =>
    let r := body [SessEvent.opened]
    (r.1, r.2 ++ [SessEvent.closed])

/-- Embedding of send_notification (src/app.py lines 84-103).  Returns the
boolean result together with the trace of session open and close events; the
try/except turns any raised error into the return value `false`. -/
def send_notification (env : SmtpSteps) : Bool × List SessEvent :=
  let attempt :=
    withSMTP env.connect (fun tr =>
      match env.starttls with
      | Except.error e => (Except.error e, tr)
      | Except.ok _ =>
        match env.login with
        | Except.error e => (Except.error e, tr)
        | Except.ok _ => (env.send_message, tr))
  match attempt with
  | (Except.ok _, tr) => (true, tr)
  | (Except.error _, tr) => (false, tr)

/-- Embedding of process_ticket_async (src/app.py lines 105-122): classify the
description, route the detected category, and build the notification that
would be sent, returned as (subject, body, destination address). -/
def process_ticket_async (senderEmail : String) (modelResponse : Except String String)
    (user_message : String) (user_name : String) (ticket_id : String) :
    String × String × String :=
  let detected_category := get_department_from_gemini modelResponse
  let dept_email := route senderEmail detected_category
  let dept_msg :=
    "\n        New Ticket: " ++ ticket_id ++
    "\n        Category: " ++ detected_category ++
    "\n        From: " ++ user_name ++
    "\n        Description: " ++ user_message ++ "\n        "
  ("Support Ticket " ++ ticket_id, dept_msg, dept_email)

/-- Wall-clock timestamp fields as produced by datetime.now(). -/
structure PyDateTime where
  year : Nat
  month : Nat
  day : Nat
  hour : Nat
  minute : Nat
  second : Nat

/-- Field ranges of a real datetime value. -/
def PyDateTime.valid (t : PyDateTime) : Prop :=
  1 ≤ t.month ∧ t.month ≤ 12 ∧ 1 ≤ t.day ∧ t.day ≤ 31 ∧
  t.hour ≤ 23 ∧ t.minute ≤ 59 ∧ t.second ≤ 59

instance (t : PyDateTime) : Decidable t.valid := by
  unfold PyDateTime.valid
  infer_instance

/-- Two-digit zero-padded decimal rendering, as strftime produces for the
fields %m %d %H %M %S. -/
def pad2 (n : Nat) : String :=
  if n < 10 then "0" ++ Nat.repr n else Nat.repr n

/-- Embedding of datetime.now().strftime("%Y%m%d%H%M%S") (src/app.py line
182): the year in decimal followed by the five two-digit zero-padded
fields. -/
def strftimeStamp (t : PyDateTime) : String :=
  Nat.repr t.year ++ pad2 t.month ++ pad2 t.day ++
  pad2 t.hour ++ pad2 t.minute ++ pad2 t.second

/-- Ticket id built on src/app.py line 182 (and line 186). -/
def ticket_id_at (t : PyDateTime) : String :=
  "TKT-" ++ strftimeStamp t

/-- Embedding of verify_teams_request (src/app.py lines 124-144).  A request
is described by its Authorization header (after the `headers.get` default "")
and by the behaviour of jwt.decode on a token string (`Except.error` when
decoding raises).  The try body either returns True early (no Bearer token),
or evaluates `auth_header.split(" ")[1]` (an out-of-range index raises) and
jwt.decode (which may raise) and then returns True; the except clause turns
any raised error into True as well. -/
def verify_teams_request (authHeader : String)
    (jwtDecode : String → Except String Unit) : Bool :=
  let attempt : Except String Bool :=
    if !(pyStartswith authHeader "Bearer ") then
      Except.ok true
    else
      match (pySplitSpace authHeader).get? 1 with
      | none => Except.error "IndexError"
      | some token =>
        match jwtDecode token with
        | Except.error e => Except.error e
        | Except.ok _ => Except.ok true
  match attempt with
  | Except.ok b => b
  | Except.error _ => true

/-- Parsed inbound JSON body: the values that `data.get("text", "")` and
`data.get("from", dict()).get("name", "Unknown User")` read, before their
defaults are applied. -/
structure InboundData where
  text : Option String
  fromName : Option String

/-- One background thread start: the args tuple handed to
threading.Thread(target=process_ticket_async, args=(description, user_name,
ticket_id)) on src/app.py lines 183 and 187. -/
structure ThreadCall where
  description : String
  userName : String
  ticketId : String
deriving DecidableEq

/-- Shape of the jsonify response body: either the normal message object or
the error object of the 401 branch. -/
inductive RespBody
  | message (text : String)
  | errJson (err : String)
deriving DecidableEq

/-- Result of one call of the messages route: the JSON body, the HTTP status
code, and the background threads started during the call. -/
structure HandlerResult where
  body : RespBody
  status : Nat
  threads : List ThreadCall
deriving DecidableEq

/-- One inbound POST to /api/messages: the Authorization header, the
jwt.decode behaviour, the parsed JSON payload (`Except.error` when reading or
traversing request.json raises), and the wall-clock time that datetime.now()
returns during the call. -/
structure HandlerInput where
  authHeader : String
  jwtDecode : String → Except String Unit
  payload : Except String InboundData
  now : PyDateTime

/-- Embedding of the messages route body after a successfully parsed payload
(src/app.py lines 161-190). -/
def messagesCore (data : InboundData) (now : PyDateTime) : HandlerResult :=
  let user_message := pyStrip (data.text.getD "")
  let user_name := data.fromName.getD "Unknown User"
  if user_message = "" then
    ⟨RespBody.message "Please provide a description of your issue.", 200, []⟩
  else
    let lower_message := pyLower user_message
    if lower_message ∈ ["hi", "hello"] then
      ⟨RespBody.message handle_hi, 200, []⟩
    else if lower_message = "help" then
      ⟨RespBody.message handle_help, 200, []⟩
    else if lower_message = "check status" then
      ⟨RespBody.message handle_check_status, 200, []⟩
    else if pyStartswith lower_message "create ticket" then
      let description := pyStrip (pySliceFrom user_message 13)
      if description = "" then
        ⟨RespBody.message "Please provide a description for your ticket.", 200, []⟩
      else
        let tid := ticket_id_at now
        ⟨RespBody.message ("✅ Ticket " ++ tid ++ " has been created. Our support team will get back to you soon!"),
         200, [⟨description, user_name, tid⟩]⟩
    else
      let tid := ticket_id_at now
      ⟨RespBody.message ("✅ Ticket " ++ tid ++ " is being processed. Our support team will get back to you soon!"),
       200, [⟨user_message, user_name, tid⟩]⟩

/-- Embedding of the try body of the messages route (src/app.py lines
156-190): the 401 branch guarded by verify_teams_request, then payload
parsing (which may raise), then the dispatch in `messagesCore`. -/
def messagesBody (inp : HandlerInput) : Except String HandlerResult :=
  if verify_teams_request inp.authHeader inp.jwtDecode = false then
    Except.ok ⟨RespBody.errJson "Unauthorized", 401, []⟩
  else
    match inp.payload with
    | Except.error e => Except.error e
    | Except.ok data => Except.ok (messagesCore data inp.now)

/-- Embedding of the messages route (src/app.py lines 153-194): any error
raised inside the body is caught and converted into the generic apology
message with status 200. -/
def messages (inp : HandlerInput) : HandlerResult :=
  match messagesBody inp with
  | Except.ok r => r
  | Except.error _ =>
    ⟨RespBody.message "I encountered an error. Please try again.", 200, []⟩


/-! Digit lemmas for `Nat.repr`, needed for the TKT pattern property. -/

lemma digitChar_isDigit (n : Nat) (h : n < 10) : (Nat.digitChar n).isDigit = true := by
  interval_cases n <;> decide

lemma toDigitsCore_len10 (fuel : Nat) :
    ∀ (n : Nat) (acc : List Char), 0 < fuel → n < 10 ^ fuel →
      (Nat.toDigitsCore 10 fuel n acc).length = acc.length + Nat.log 10 n + 1 := by
  induction fuel with
  | zero => intro n acc h _; omega
  | succ f ih =>
    intro n acc _ hlt
    simp only [Nat.toDigitsCore]
    by_cases h0 : n / 10 = 0
    · have hn : n < 10 := by omega
      have hlog : Nat.log 10 n = 0 := Nat.log_eq_zero_iff.mpr (Or.inl hn)
      simp [h0, hlog]
    · rcases f with _ | f2
      · exfalso
        have h1 : (10 : Nat) ^ 1 = 10 := by norm_num
        rw [h1] at hlt
        omega
      · have hdiv : n / 10 < 10 ^ (f2 + 1) := by
          rw [Nat.div_lt_iff_lt_mul (by norm_num : (0:Nat) < 10)]
          calc n < 10 ^ (f2 + 1 + 1) := hlt
            _ = 10 ^ (f2 + 1) * 10 := by ring
        have hlog1 : 1 ≤ Nat.log 10 n := Nat.log_pos (by norm_num) (by omega)
        simp only [h0, if_false]
        rw [ih (n / 10) _ (Nat.succ_pos f2) hdiv]
        rw [Nat.log_div_base]
        simp only [List.length_cons]
        omega

lemma repr_length_eq (n : Nat) : (Nat.repr n).length = Nat.log 10 n + 1 := by
  have h1 : n < 10 ^ (n + 1) :=
    lt_of_lt_of_le (Nat.lt_pow_self (by norm_num) n)
      (Nat.pow_le_pow_right (by norm_num) (Nat.le_succ n))
  unfold Nat.repr Nat.toDigits
  rw [List.length_asString]
  have := toDigitsCore_len10 (n + 1) n [] (Nat.succ_pos n) h1
  simpa using this

lemma toDigitsCore_digits10 (fuel : Nat) :
    ∀ (n : Nat) (acc : List Char), acc.all Char.isDigit = true →
      (Nat.toDigitsCore 10 fuel n acc).all Char.isDigit = true := by
  induction fuel with
  | zero => intro n acc h; simpa [Nat.toDigitsCore] using h
  | succ f ih =>
    intro n acc h
    simp only [Nat.toDigitsCore]
    have hd : (Nat.digitChar (n % 10)).isDigit = true :=
      digitChar_isDigit _ (Nat.mod_lt _ (by norm_num))
    by_cases h0 : n / 10 = 0
    · simp [h0, List.all_cons, hd, h]
    · simp only [h0, if_false]
      exact ih _ _ (by simp [List.all_cons, hd, h])

lemma repr_all_digits (n : Nat) : (Nat.repr n).data.all Char.isDigit = true := by
  unfold Nat.repr Nat.toDigits
  show (List.asString _).data.all Char.isDigit = true
  rw [show ∀ l : List Char, (List.asString l).data = l from fun _ => rfl]
  exact toDigitsCore_digits10 (n + 1) n [] rfl


lemma repr_len_of_range (y : Nat) (h1 : 1000 ≤ y) (h2 : y ≤ 9999) :
    (Nat.repr y).length = 4 := by
  rw [repr_length_eq]
  have e3 : (10 : Nat) ^ 3 = 1000 := by norm_num
  have e4 : (10 : Nat) ^ (3 + 1) = 10000 := by norm_num
  have hlog : Nat.log 10 y = 3 :=
    Nat.log_eq_of_pow_le_of_lt_pow (by omega) (by omega)
  omega

lemma pad2_length (n : Nat) (h : n ≤ 99) : (pad2 n).length = 2 := by
  unfold pad2
  by_cases h10 : n < 10
  · rw [if_pos h10, String.length_append, repr_length_eq]
    have hlog : Nat.log 10 n = 0 := Nat.log_eq_zero_iff.mpr (Or.inl h10)
    rw [hlog]
    decide
  · rw [if_neg h10, repr_length_eq]
    have e1 : (10 : Nat) ^ 1 = 10 := by norm_num
    have e2 : (10 : Nat) ^ (1 + 1) = 100 := by norm_num
    have hlog : Nat.log 10 n = 1 :=
      Nat.log_eq_of_pow_le_of_lt_pow (by omega) (by omega)
    omega

lemma pad2_digits (n : Nat) : (pad2 n).data.all Char.isDigit = true := by
  unfold pad2
  by_cases h10 : n < 10
  · rw [if_pos h10, String.data_append, List.all_append]
    simp [repr_all_digits n]
  · rw [if_neg h10]
    exact repr_all_digits n

lemma strftimeStamp_spec (t : PyDateTime) (hv : t.valid)
    (hy1 : 1000 ≤ t.year) (hy2 : t.year ≤ 9999) :
    (strftimeStamp t).length = 14 ∧ (strftimeStamp t).data.all Char.isDigit = true := by
  obtain ⟨hm1, hm2, hd1, hd2, hh, hmin, hs⟩ := hv
  constructor
  · unfold strftimeStamp
    simp only [String.length_append]
    rw [repr_len_of_range t.year hy1 hy2,
        pad2_length t.month (by omega), pad2_length t.day (by omega),
        pad2_length t.hour (by omega), pad2_length t.minute (by omega),
        pad2_length t.second (by omega)]
  · unfold strftimeStamp
    simp only [String.data_append, List.all_append]
    simp [repr_all_digits, pad2_digits]

/-! Helper lemmas on the request handler. -/

lemma verify_always (a : String) (jd : String → Except String Unit) :
    verify_teams_request a jd = true := by
  unfold verify_teams_request
  cases hb : pyStartswith a "Bearer " with
  | false => rfl
  | true =>
    simp only [hb, Bool.not_true, Bool.false_eq_true, if_false]
    cases hg : (pySplitSpace a).get? 1 with
    | none => rfl
    | some token =>
      cases hj : jd token with
      | error e => simp [hj]
      | ok u => simp [hj]

lemma messages_ok (a : String) (jd : String → Except String Unit)
    (d : InboundData) (t : PyDateTime) :
    messages ⟨a, jd, Except.ok d, t⟩ = messagesCore d t := by
  unfold messages messagesBody
  rw [verify_always]
  simp

lemma messages_err (a : String) (jd : String → Except String Unit)
    (e : String) (t : PyDateTime) :
    messages ⟨a, jd, Except.error e, t⟩ =
      ⟨RespBody.message "I encountered an error. Please try again.", 200, []⟩ := by
  unfold messages messagesBody
  rw [verify_always]
  simp

lemma messagesCore_status (d : InboundData) (t : PyDateTime) :
    (messagesCore d t).status = 200 := by
  unfold messagesCore
  dsimp only
  split_ifs <;> rfl

lemma messages_status (inp : HandlerInput) : (messages inp).status = 200 := by
  obtain ⟨a, jd, p, t⟩ := inp
  cases p with
  | error e => rw [messages_err]
  | ok d => rw [messages_ok]; exact messagesCore_status d t


/-! Claim theorems. -/

/-- Claim C1: the spec says routing each of the six named categories
(Training, IT Operations, Technology, HR, Finance, Sales) returns the
department address mapped to it in the routing table.  In the code the
routing-table keys are the env-style strings TRAINING_EMAIL, IT_OPS_EMAIL,
..., so every one of the six category names misses the table and falls back
to the configured default sender address; the department addresses stored in
the table (for example hr@example.com under HR_EMAIL) are unreachable for
these categories.  Only the absent-key fallback half of the claim holds. -/
theorem route_named_categories_fall_to_default :
    route "sender@example.com" "Training" = "sender@example.com" ∧
    route "sender@example.com" "IT Operations" = "sender@example.com" ∧
    route "sender@example.com" "Technology" = "sender@example.com" ∧
    route "sender@example.com" "HR" = "sender@example.com" ∧
    route "sender@example.com" "Finance" = "sender@example.com" ∧
    route "sender@example.com" "Sales" = "sender@example.com" ∧
    dictGet CATEGORIES "HR_EMAIL" "sender@example.com" = "hr@example.com" :=
  ⟨rfl, rfl, rfl, rfl, rfl, rfl, rfl⟩

/-- Claim C2: the spec says a trimmed model response equal to one of the six
category names is returned as is, and anything else maps to Training.  In the
code the membership test is against the keys of CATEGORIES (TRAINING_EMAIL,
...), so the category name HR collapses to Training, while the off-set
response HR_EMAIL is returned as is: both directions of the claim fail. -/
theorem classify_rejects_category_names :
    get_department_from_gemini (Except.ok "HR") = "Training" ∧
    get_department_from_gemini (Except.ok "Finance") = "Training" ∧
    get_department_from_gemini (Except.ok "HR_EMAIL") = "HR_EMAIL" :=
  ⟨rfl, rfl, rfl⟩

/-- Claim C3: when the underlying classification call raises any error, the
method returns the default category Training and never propagates the
exception (the embedding is a total function on the error outcome). -/
theorem classify_error_returns_training (e : String) :
    get_department_from_gemini (Except.error e) = "Training" :=
  rfl

/-- Claim C6: for every input whose trimmed lowercase text equals "hi" or
"hello", the handler returns the fixed greeting and starts no background
thread. -/
theorem greeting_fixed_text_no_pipeline (a : String) (jd : String → Except String Unit)
    (nm : Option String) (t : PyDateTime) (raw : String)
    (h : pyLower (pyStrip raw) = "hi" ∨ pyLower (pyStrip raw) = "hello") :
    messages ⟨a, jd, Except.ok ⟨some raw, nm⟩, t⟩ =
      ⟨RespBody.message handle_hi, 200, []⟩ := by
  rw [messages_ok]
  simp only [messagesCore, Option.getD_some]
  have hne : ¬(pyStrip raw = "") := by
    intro he
    rw [he] at h
    revert h
    decide
  rw [if_neg hne]
  have hmem : pyLower (pyStrip raw) ∈ ["hi", "hello"] := by
    rcases h with h | h <;> simp [h]
  rw [if_pos hmem]

/-- Witness for C6 at the concrete input "  HELLO ". -/
theorem greeting_fixed_text_no_pipeline_witness :
    (pyLower (pyStrip "  HELLO ") = "hi" ∨ pyLower (pyStrip "  HELLO ") = "hello") ∧
    messages ⟨"", fun _ => Except.ok (), Except.ok ⟨some "  HELLO ", some "Alice"⟩,
        ⟨2026, 1, 1, 0, 0, 0⟩⟩ =
      ⟨RespBody.message handle_hi, 200, []⟩ :=
  ⟨by decide,
   greeting_fixed_text_no_pipeline "" (fun _ => Except.ok ()) (some "Alice")
     ⟨2026, 1, 1, 0, 0, 0⟩ "  HELLO " (by decide)⟩

/-- Claim C5: for every input whose trimmed lowercase text starts with
"create ticket" but whose remainder after the 13-character prefix is empty or
whitespace-only, the handler answers with the validation message, and no
ticket id is built and no background thread is started. -/
theorem create_ticket_empty_description_validates (a : String)
    (jd : String → Except String Unit) (nm : Option String) (t : PyDateTime)
    (raw : String)
    (h1 : pyStartswith (pyLower (pyStrip raw)) "create ticket" = true)
    (h2 : pyStrip (pySliceFrom (pyStrip raw) 13) = "") :
    messages ⟨a, jd, Except.ok ⟨some raw, nm⟩, t⟩ =
      ⟨RespBody.message "Please provide a description for your ticket.", 200, []⟩ := by
  rw [messages_ok]
  simp only [messagesCore, Option.getD_some]
  have hne : ¬(pyStrip raw = "") := by
    intro he
    rw [he] at h1
    exact absurd h1 (by decide)
  rw [if_neg hne]
  have hmem : ¬(pyLower (pyStrip raw) ∈ ["hi", "hello"]) := by
    intro hm
    simp only [List.mem_cons, List.not_mem_nil, or_false] at hm
    rcases hm with hm | hm <;> rw [hm] at h1 <;> exact absurd h1 (by decide)
  rw [if_neg hmem]
  have hh : ¬(pyLower (pyStrip raw) = "help") := by
    intro he
    rw [he] at h1
    exact absurd h1 (by decide)
  rw [if_neg hh]
  have hc : ¬(pyLower (pyStrip raw) = "check status") := by
    intro he
    rw [he] at h1
    exact absurd h1 (by decide)
  rw [if_neg hc]
  rw [if_pos h1, if_pos h2]

/-- Witness for C5 at the concrete input "Create Ticket " (prefix only). -/
theorem create_ticket_empty_description_validates_witness :
    pyStartswith (pyLower (pyStrip "Create Ticket ")) "create ticket" = true ∧
    pyStrip (pySliceFrom (pyStrip "Create Ticket ") 13) = "" ∧
    messages ⟨"", fun _ => Except.ok (), Except.ok ⟨some "Create Ticket ", some "Alice"⟩,
        ⟨2026, 1, 1, 0, 0, 0⟩⟩ =
      ⟨RespBody.message "Please provide a description for your ticket.", 200, []⟩ :=
  ⟨by decide, by decide,
   create_ticket_empty_description_validates "" (fun _ => Except.ok ()) (some "Alice")
     ⟨2026, 1, 1, 0, 0, 0⟩ "Create Ticket " (by decide) (by decide)⟩

/-- Claim C4: for the input "Create Ticket printer is broken" the
acknowledgment embeds a ticket id of the shape TKT- followed by 14 decimal
digits (for wall-clock years between 1000 and 9999), and the scheduled
background thread receives exactly the description "printer is broken" with
original case preserved. -/
theorem create_ticket_ack_and_pipeline_description (a : String)
    (jd : String → Except String Unit) (nm : String) (t : PyDateTime)
    (hv : t.valid) (hy1 : 1000 ≤ t.year) (hy2 : t.year ≤ 9999) :
    (∃ ds : String, ticket_id_at t = "TKT-" ++ ds ∧ ds.length = 14 ∧
      ds.data.all Char.isDigit = true) ∧
    messages ⟨a, jd, Except.ok ⟨some "Create Ticket printer is broken", some nm⟩, t⟩ =
      ⟨RespBody.message ("✅ Ticket " ++ ticket_id_at t ++
         " has been created. Our support team will get back to you soon!"), 200,
       [⟨"printer is broken", nm, ticket_id_at t⟩]⟩ := by
  constructor
  · exact ⟨strftimeStamp t, rfl, (strftimeStamp_spec t hv hy1 hy2).1,
      (strftimeStamp_spec t hv hy1 hy2).2⟩
  · rw [messages_ok]
    simp only [messagesCore, Option.getD_some]
    rw [if_neg (by decide : ¬(pyStrip "Create Ticket printer is broken" = ""))]
    rw [if_neg (by decide : ¬(pyLower (pyStrip "Create Ticket printer is broken") ∈ ["hi", "hello"]))]
    rw [if_neg (by decide : ¬(pyLower (pyStrip "Create Ticket printer is broken") = "help"))]
    rw [if_neg (by decide : ¬(pyLower (pyStrip "Create Ticket printer is broken") = "check status"))]
    rw [if_pos (by decide : pyStartswith (pyLower (pyStrip "Create Ticket printer is broken")) "create ticket" = true)]
    rw [if_neg (by decide : ¬(pyStrip (pySliceFrom (pyStrip "Create Ticket printer is broken") 13) = ""))]
    rw [show pyStrip (pySliceFrom (pyStrip "Create Ticket printer is broken") 13) = "printer is broken" from by decide]

/-- Witness for C4 at the concrete time 2026-10-12 14:30:05. -/
theorem create_ticket_ack_and_pipeline_description_witness :
    PyDateTime.valid ⟨2026, 10, 12, 14, 30, 5⟩ ∧ 1000 ≤ 2026 ∧ 2026 ≤ 9999 ∧
    ((∃ ds : String, ticket_id_at ⟨2026, 10, 12, 14, 30, 5⟩ = "TKT-" ++ ds ∧
        ds.length = 14 ∧ ds.data.all Char.isDigit = true) ∧
     messages ⟨"", fun _ => Except.ok (),
         Except.ok ⟨some "Create Ticket printer is broken", some "Alice"⟩,
         ⟨2026, 10, 12, 14, 30, 5⟩⟩ =
       ⟨RespBody.message ("✅ Ticket " ++ ticket_id_at ⟨2026, 10, 12, 14, 30, 5⟩ ++
          " has been created. Our support team will get back to you soon!"), 200,
        [⟨"printer is broken", "Alice", ticket_id_at ⟨2026, 10, 12, 14, 30, 5⟩⟩]⟩) :=
  ⟨by decide, by decide, by decide,
   create_ticket_ack_and_pipeline_description "" (fun _ => Except.ok ()) "Alice"
     ⟨2026, 10, 12, 14, 30, 5⟩ (by decide) (by decide) (by decide)⟩

/-- Claim C10: the "create ticket" match requires no separator after the
13-character prefix: "create ticketing help" is treated as ticket creation
and the scheduled thread receives the description "ing help". -/
theorem create_ticket_no_separator_needed (a : String)
    (jd : String → Except String Unit) (nm : String) (t : PyDateTime) :
    messages ⟨a, jd, Except.ok ⟨some "create ticketing help", some nm⟩, t⟩ =
      ⟨RespBody.message ("✅ Ticket " ++ ticket_id_at t ++
         " has been created. Our support team will get back to you soon!"), 200,
       [⟨"ing help", nm, ticket_id_at t⟩]⟩ := by
  rw [messages_ok]
  simp only [messagesCore, Option.getD_some]
  rw [if_neg (by decide : ¬(pyStrip "create ticketing help" = ""))]
  rw [if_neg (by decide : ¬(pyLower (pyStrip "create ticketing help") ∈ ["hi", "hello"]))]
  rw [if_neg (by decide : ¬(pyLower (pyStrip "create ticketing help") = "help"))]
  rw [if_neg (by decide : ¬(pyLower (pyStrip "create ticketing help") = "check status"))]
  rw [if_pos (by decide : pyStartswith (pyLower (pyStrip "create ticketing help")) "create ticket" = true)]
  rw [if_neg (by decide : ¬(pyStrip (pySliceFrom (pyStrip "create ticketing help") 13) = ""))]
  rw [show pyStrip (pySliceFrom (pyStrip "create ticketing help") 13) = "ing help" from by decide]

/-- Claim C7: for every inbound request the messages route returns HTTP
status 200, and whenever reading the payload raises, the response is the
generic apology message with status 200 and no background thread. -/
theorem handler_error_becomes_apology_success (inp : HandlerInput) :
    (messages inp).status = 200 ∧
    (∀ e : String, inp.payload = Except.error e →
      messages inp =
        ⟨RespBody.message "I encountered an error. Please try again.", 200, []⟩) := by
  refine ⟨messages_status inp, ?_⟩
  intro e he
  obtain ⟨a, jd, p, t⟩ := inp
  have hp : p = Except.error e := he
  subst hp
  exact messages_err a jd e t

/-- Witness for C7 at a concrete raising payload. -/
theorem handler_error_becomes_apology_success_witness :
    (messages ⟨"Bearer x", fun _ => Except.error "bad", Except.error "boom",
        ⟨2026, 1, 1, 0, 0, 0⟩⟩).status = 200 ∧
    messages ⟨"Bearer x", fun _ => Except.error "bad", Except.error "boom",
        ⟨2026, 1, 1, 0, 0, 0⟩⟩ =
      ⟨RespBody.message "I encountered an error. Please try again.", 200, []⟩ :=
  ⟨(handler_error_becomes_apology_success ⟨"Bearer x", fun _ => Except.error "bad",
      Except.error "boom", ⟨2026, 1, 1, 0, 0, 0⟩⟩).1,
   (handler_error_becomes_apology_success ⟨"Bearer x", fun _ => Except.error "bad",
      Except.error "boom", ⟨2026, 1, 1, 0, 0, 0⟩⟩).2 "boom" rfl⟩

/-- Claim C8: send_notification returns true exactly when the connect,
starttls, login and send steps all succeed (false on any failure, raising
nothing past its boundary, being a total function), and the SMTP session
trace closes every session it opens on every exit path. -/
theorem send_notification_bool_and_session_release (env : SmtpSteps) :
    ((send_notification env).1 = true ↔
      (env.connect = Except.ok () ∧ env.starttls = Except.ok () ∧
       env.login = Except.ok () ∧ env.send_message = Except.ok ())) ∧
    (send_notification env).2.count SessEvent.opened =
      (send_notification env).2.count SessEvent.closed := by
  obtain ⟨c, s, l, m⟩ := env
  rcases c with ec | ⟨⟩ <;> rcases s with es | ⟨⟩ <;> rcases l with el | ⟨⟩ <;>
    rcases m with em | ⟨⟩ <;> simp [send_notification, withSMTP]

/-- Claim C9: inbound request verification returns true for every request
(no Authorization header, malformed bearer token, undecodable token, or a
decoder that raises), and consequently the messages route never answers with
the 401 status: it answers 200 on every input. -/
theorem verification_always_allows :
    (∀ (a : String) (jd : String → Except String Unit),
      verify_teams_request a jd = true) ∧
    (∀ inp : HandlerInput, (messages inp).status = 200) :=
  ⟨verify_always, messages_status⟩

end Ticketnator



